import Mathlib

/-!
Shallow embedding of `src/apps/desktop/src-tauri/src/lib.rs` (the Tulsbot
desktop shell: health polling, status aggregation, popover window state
machine, and the HTTP proxy command), together with theorems checking the
natural-language specification against this embedding.

Conventions of the embedding:
* The outcome of each external effect (TCP connect, platform window
  operation, HTTP response) is an explicit parameter, so every Rust
  function becomes a pure Lean function of its inputs and of the
  environment's responses.  The standard library's full-Unicode
  `str::to_uppercase` is likewise passed in as a function parameter;
  witnesses instantiate it with its ASCII fragment, on which it is
  exactly the per-character map.
* Rust `Result<T, String>` becomes `Except String T`.
* Machine integers (`u16` ports, HTTP status codes) fit far below their
  bounds here, so they are modelled as `Nat`.
-/

namespace Tulsbot

/-- One monitored endpoint's latest result (`struct ServiceHealth`). -/
structure ServiceHealth where
  name : String
  healthy : Bool
  port : Nat
deriving Repr, DecidableEq

/-- The process-wide status record (`struct HealthState`). -/
structure HealthState where
  services : List ServiceHealth
  overall : String
deriving Repr, DecidableEq

/-- `impl Default for HealthState`: four fixed services, all unhealthy,
overall "down". -/
def HealthState.default : HealthState :=
  { services :=
      [ { name := "PostgreSQL", healthy := false, port := 5432 },
        { name := "Qdrant", healthy := false, port := 6333 },
        { name := "Context Manager", healthy := false, port := 3001 },
        { name := "Web UI", healthy := false, port := 3100 } ],
    overall := "down" }

/-- The resolution of one `TcpStream::connect` attempt: how long the await
takes before the future resolves, and whether it resolves `Ok`. -/
structure ConnectOutcome where
  duration : Nat
  success : Bool
deriving Repr, DecidableEq

/-- The network environment: for each address string, the outcome of a
connect attempt against it. -/
def Net : Type := String → ConnectOutcome

/-- `check_port`: connects to `"127.0.0.1:{port}"` and returns `is_ok()` of
the resolved attempt.  The source applies no timeout combinator to the
connect future, so the returned value is exactly the success of the
attempt, however long it took. -/
def check_port (net : Net) (port : Nat) : Bool :=
  (net ("127.0.0.1:" ++ toString port)).success

/-- Time spent awaiting inside `check_port`: the full duration of the
connect attempt (no timeout combinator bounds it). -/
def check_port_elapsed (net : Net) (port : Nat) : Nat :=
  (net ("127.0.0.1:" ++ toString port)).duration

/-- The fixed monitored endpoint list of `poll_health`. -/
def ports : List (String × Nat) :=
  [("PostgreSQL", 5432), ("Qdrant", 6333), ("Context Manager", 3001), ("Web UI", 3100)]

/-- The services list built by one tick of `poll_health`: one probe per
fixed endpoint, in declaration order. -/
def poll_services (net : Net) : List ServiceHealth :=
  ports.map (fun e => { name := e.1, healthy := check_port net e.2, port := e.2 })

/-- `healthy_count` accumulated by the tick loop. -/
def healthy_count (services : List ServiceHealth) : Nat :=
  services.countP (fun s => s.healthy)

/-- The `overall` computation of `poll_health`, as a pure function of the
services list: "healthy" if every probe succeeded (count equals length),
"degraded" if at least one succeeded, otherwise "down". -/
def overall_of (services : List ServiceHealth) : String :=
  if healthy_count services = services.length then "healthy"
  else if healthy_count services > 0 then "degraded"
  else "down"

/-- The snapshot written to the health store and broadcast by one tick of
`poll_health`, as a function of the network environment. -/
def poll_health_snapshot (net : Net) : HealthState :=
  { services := poll_services net, overall := overall_of (poll_services net) }

/-- `get_health`: locks the store and returns a clone of the current
snapshot (the lock is modelled as always acquired: no thread in the
embedding panics, so the mutex is never poisoned). -/
def get_health (stored : HealthState) : Except String HealthState :=
  .ok stored

-- ── api_proxy ──

/-- The five HTTP methods accepted by `api_proxy`. -/
inductive Method where
  | GET | POST | PUT | DELETE | PATCH
deriving Repr, DecidableEq

/-- The ASCII fragment of Unicode uppercasing, as a per-character map.
Rust's `str::to_uppercase` agrees with it on ASCII strings (but not
beyond: its full case table also maps characters such as U+017F to "S").
It serves only to instantiate the uppercase environment at the concrete
ASCII inputs of the witnesses below. -/
def ascii_uppercase (s : String) : String :=
  String.mk (s.data.map Char.toUpper)

/-- The method match of `api_proxy`: uppercase the string with the
standard library's `str::to_uppercase`, accept the five known verbs,
reject anything else with a message naming the (uppercased) method.
`str::to_uppercase`'s full Unicode case table lives outside this
repository, so — like the other standard-library effects here — its
behavior is the explicit parameter `up`. -/
def parse_method (up : String → String) (m : String) : Except String Method :=
  let u := up m
  if u = "GET" then .ok .GET
  else if u = "POST" then .ok .POST
  else if u = "PUT" then .ok .PUT
  else if u = "DELETE" then .ok .DELETE
  else if u = "PATCH" then .ok .PATCH
  else .error ("Unsupported HTTP method: " ++ u)

/-- The request `api_proxy` hands to the HTTP client: parsed method, url,
the fixed 60-second per-call timeout, and the optional JSON body (when
present the source also sets the content-type header). -/
structure HttpRequest where
  method : Method
  url : String
  timeoutSecs : Nat
  jsonBody : Option String
deriving Repr, DecidableEq

/-- The upstream's answer to one sent request: either the send itself
failed, or a response arrived with a status code and a body-read result. -/
inductive HttpOutcome where
  | sendErr (msg : String)
  | resp (status : Nat) (text : Except String String)
deriving Repr

/-- The HTTP environment: what the upstream answers to each request. -/
def Http : Type := HttpRequest → HttpOutcome

/-- `api_proxy`: parse the method (before any request is sent), build the
request with the fixed 60s timeout and optional body, send it, read the
body text, and treat any status at or above 400 as an error carrying the
status and the body.  `up` is the standard library's uppercase map and
`http` the upstream's behavior. -/
def api_proxy (up : String → String) (http : Http) (method url : String)
    (body : Option String) : Except String String :=
  match parse_method up method with
  | .error e => .error e
  | .ok m =>
    match http { method := m, url := url, timeoutSecs := 60, jsonBody := body } with
    | .sendErr e => .error ("Request failed: " ++ e)
    | .resp status textRes =>
      match textRes with
      | .error e => .error e
      | .ok text =>
        if 400 ≤ status then .error ("HTTP " ++ toString status ++ ": " ++ text)
        else .ok text

/-- `sub` occurs contiguously inside `s`. -/
def str_contains (s sub : String) : Prop :=
  ∃ a b : String, s = a ++ sub ++ b

-- ── Popover window management ──

/-- One platform window as the popover code observes it: its label, its
visibility and focus, the position last applied to it, and whether the
hide-on-blur reaction (`on_window_event` for `Focused(false)`) was
registered on it. -/
structure Window where
  label : String
  visible : Bool
  focused : Bool
  pos : Option (Int × Int)
  blurHandler : Bool
deriving Repr, DecidableEq

/-- The platform's disposition for one command's window operations:
whether each underlying operation succeeds, whether `is_visible()`
answers, and the primary monitor's logical width when one is reported. -/
structure Platform where
  hideOk : Bool
  showOk : Bool
  focusOk : Bool
  createOk : Bool
  positionOk : Bool
  isVisibleOk : Bool
  monitor : Option Int
deriving Repr, DecidableEq

/-- `app.get_webview_window(label)`: the first window carrying `label`. -/
def get_webview_window (ws : List Window) (label : String) : Option Window :=
  ws.find? (fun w => w.label = label)

/-- Apply `f` to every window carrying `label` (at most one exists in any
state this development builds, since creation is guarded by lookup). -/
def set_window (ws : List Window) (label : String) (f : Window → Window) : List Window :=
  ws.map (fun w => if w.label = label then f w else w)

/-- The window built by the fallback branch of `toggle_popover`: visible
immediately on creation, at the builder's default placement, with no
hide-on-blur reaction registered (the builder registers none). -/
def new_popover : Window :=
  { label := "chat-popover", visible := true, focused := false, pos := none,
    blurHandler := false }

/-- The spec's popover lifecycle states. -/
inductive PopoverState where
  | absent | hidden | visible
deriving Repr, DecidableEq

/-- The lifecycle state a window list is in, as the spec describes it. -/
def popover_state (ws : List Window) : PopoverState :=
  match get_webview_window ws "chat-popover" with
  | none => .absent
  | some w => if w.visible then .visible else .hidden

/-- `toggle_popover`: look the singleton up; when present and seen visible
(`is_visible().unwrap_or(false)`) hide it (a hide failure is returned via
`?`); when present and not seen visible, reposition it near the top-right
of the primary monitor when one is reported (a positioning failure is
swallowed by `let _ =`), then show and focus it (either failure is
returned via `?`); when absent, build it visible (a build failure is
returned via `?`). -/
def toggle_popover (p : Platform) (ws : List Window) :
    List Window × Except String Unit :=
  match get_webview_window ws "chat-popover" with
  | some w =>
    if w.visible && p.isVisibleOk then
      if p.hideOk then
        (set_window ws "chat-popover" (fun v => { v with visible := false }), .ok ())
      else (ws, .error "hide failed")
    else
      let ws1 :=
        match p.monitor with
        | some screenW =>
          if p.positionOk then
            set_window ws "chat-popover"
              (fun v => { v with pos := some (screenW - 390, 30) })
          else ws
        | none => ws
      if p.showOk then
        let ws2 := set_window ws1 "chat-popover" (fun v => { v with visible := true })
        if p.focusOk then
          (set_window ws2 "chat-popover" (fun v => { v with focused := true }), .ok ())
        else (ws2, .error "focus failed")
      else (ws1, .error "show failed")
  | none =>
    if p.createOk then (ws ++ [new_popover], .ok ())
    else (ws, .error "create failed")

/-- `hide_popover`: hide the singleton when it exists (a hide failure is
returned via `?`), succeed without doing anything otherwise. -/
def hide_popover (p : Platform) (ws : List Window) :
    List Window × Except String Unit :=
  match get_webview_window ws "chat-popover" with
  | some _ =>
    if p.hideOk then
      (set_window ws "chat-popover" (fun v => { v with visible := false }), .ok ())
    else (ws, .error "hide failed")
  | none => (ws, .ok ())

/-- The hide-on-blur registration in `run`'s setup hook: only a popover
already existing when setup runs gets `on_window_event` attached; when
none exists, nothing is registered. -/
def setup_blur_handler (ws : List Window) : List Window :=
  match get_webview_window ws "chat-popover" with
  | some _ => set_window ws "chat-popover" (fun v => { v with blurHandler := true })
  | none => ws

/-- The effect of a `Focused(b)` event on one window: its focus field
changes; when the hide-on-blur reaction is registered and focus was lost,
the reaction calls `hide()`, whose failure is swallowed (`let _ =`). -/
def blur_update (p : Platform) (b : Bool) (v : Window) : Window :=
  if v.blurHandler && !b && p.hideOk then { v with focused := b, visible := false }
  else { v with focused := b }

/-- Delivery of a `Focused(b)` window event to the window carrying
`label`. -/
def deliver_focus_event (p : Platform) (ws : List Window) (label : String) (b : Bool) :
    List Window :=
  set_window ws label (blur_update p b)

/-- A platform on which every window operation succeeds and a monitor of
logical width 1440 is reported. -/
def ok_platform : Platform :=
  { hideOk := true, showOk := true, focusOk := true, createOk := true,
    positionOk := true, isVisibleOk := true, monitor := some 1440 }

/-- Number of windows carrying the popover's singleton key. -/
def popover_count (ws : List Window) : Nat :=
  (ws.filter (fun w => w.label = "chat-popover")).length

end Tulsbot

namespace Tulsbot

/-- C1: For every combination of per-endpoint probe results over the four
monitored endpoints, the aggregated `overall` is "healthy" iff every
result is true, "down" iff every result is false, and "degraded"
otherwise; and every snapshot produced by a tick has
`overall = overall_of services` (a pure function of its services). -/
theorem overall_aggregation (net : Net) :
    ((poll_health_snapshot net).overall = "healthy" ↔
      ∀ s ∈ (poll_health_snapshot net).services, s.healthy = true) ∧
    ((poll_health_snapshot net).overall = "down" ↔
      ∀ s ∈ (poll_health_snapshot net).services, s.healthy = false) ∧
    ((poll_health_snapshot net).overall = "degraded" ↔
      ((∃ s ∈ (poll_health_snapshot net).services, s.healthy = true) ∧
       (∃ s ∈ (poll_health_snapshot net).services, s.healthy = false))) ∧
    (poll_health_snapshot net).overall = overall_of (poll_health_snapshot net).services := by
  cases hb1 : check_port net 5432 <;> cases hb2 : check_port net 6333 <;>
    cases hb3 : check_port net 3001 <;> cases hb4 : check_port net 3100 <;>
      simp [poll_health_snapshot, poll_services, ports, overall_of, healthy_count,
        hb1, hb2, hb3, hb4, List.countP_cons]

/-- C2: before the first completed poll tick the stored snapshot is the
default: `get_health` returns it unchanged, its `overall` is "down" and
each of its four services is unhealthy. -/
theorem get_health_initial :
    get_health HealthState.default = .ok HealthState.default ∧
    HealthState.default.overall = "down" ∧
    HealthState.default.services.length = 4 ∧
    ∀ s ∈ HealthState.default.services, s.healthy = false := by
  refine ⟨rfl, rfl, rfl, ?_⟩
  decide

/-- C3 counterexample: no timeout bounds `check_port`.  For every candidate
timeout value there is a connect attempt (a non-listening endpoint that
never answers) on which the probe blocks strictly longer, so the claim
that the probe "takes a timeout parameter" and "never blocks past the
configured timeout" is false of the source, which applies no timeout to
the connect future. -/
theorem check_port_unbounded :
    ¬ ∃ timeout : Nat, ∀ net : Net, ∀ port : Nat,
      check_port_elapsed net port ≤ timeout := by
  rintro ⟨timeout, h⟩
  have hh := h (fun _ => { duration := timeout + 1, success := false }) 5432
  simp [check_port_elapsed] at hh

/-- C3 amended: `check_port` takes only a port (no timeout parameter);
it returns true iff the connect attempt against `127.0.0.1:port`
succeeds, returns a plain boolean on any failure (never propagating an
error), and awaits the attempt for its full duration — for every candidate
timeout some failing attempt blocks past it. -/
theorem check_port_behavior (net : Net) (port : Nat) :
    (check_port net port = true ↔
      (net ("127.0.0.1:" ++ toString port)).success = true) ∧
    check_port_elapsed net port = (net ("127.0.0.1:" ++ toString port)).duration ∧
    ∀ timeout : Nat, ∃ m : Net,
      check_port m port = false ∧ timeout < check_port_elapsed m port := by
  refine ⟨Iff.rfl, rfl, fun timeout => ?_⟩
  refine ⟨fun _ => { duration := timeout + 1, success := false }, rfl, ?_⟩
  simp [check_port_elapsed]

/-- C3 witness for the amended theorem at a concrete network. -/
theorem check_port_behavior_witness :
    check_port (fun _ => { duration := 2, success := true }) 5432 = true ∧
    check_port_elapsed (fun _ => { duration := 2, success := true }) 5432 = 2 := by
  have h := check_port_behavior (fun _ => { duration := 2, success := true }) 5432
  exact ⟨h.1.mpr rfl, h.2.1⟩

/-- String append is associative (helper for substring witnesses). -/
theorem str_append_assoc (a b c : String) : a ++ b ++ c = a ++ (b ++ c) := by
  apply String.ext
  simp [String.data_append, List.append_assoc]

/-- C9: once the method parses and the upstream answers with a readable
body, `api_proxy` returns an error for any status at or above 400 whose
message contains both the numeric status and the body text, and returns
the body as success for any status below 400. -/
theorem api_proxy_status_handling (up : String → String) (http : Http)
    (method url text : String)
    (body : Option String) (status : Nat) (m : Method)
    (hm : parse_method up method = .ok m)
    (hresp : http { method := m, url := url, timeoutSecs := 60, jsonBody := body } =
      .resp status (.ok text)) :
    (400 ≤ status →
      api_proxy up http method url body =
        .error ("HTTP " ++ toString status ++ ": " ++ text) ∧
      str_contains ("HTTP " ++ toString status ++ ": " ++ text) (toString status) ∧
      str_contains ("HTTP " ++ toString status ++ ": " ++ text) text) ∧
    (status < 400 → api_proxy up http method url body = .ok text) := by
  constructor
  · intro h400
    refine ⟨?_, ⟨"HTTP ", ": " ++ text, ?_⟩,
      ⟨"HTTP " ++ toString status ++ ": ", "", ?_⟩⟩
    · simp [api_proxy, hm, hresp, h400]
    · simp [str_append_assoc]
    · simp [str_append_assoc, String.append_empty]
  · intro hlt
    have : ¬ 400 ≤ status := by omega
    simp [api_proxy, hm, hresp, this]

/-- C9 witness: a 404 with body "missing" at a concrete request, with the
uppercase environment instantiated to the ASCII map (which agrees with
`str::to_uppercase` on the ASCII method "GET"). -/
theorem api_proxy_status_handling_witness :
    api_proxy ascii_uppercase (fun _ => .resp 404 (.ok "missing")) "GET"
      "http://localhost:3001/x" none =
      .error ("HTTP " ++ toString 404 ++ ": " ++ "missing") ∧
    str_contains ("HTTP " ++ toString 404 ++ ": " ++ "missing") (toString 404) ∧
    str_contains ("HTTP " ++ toString 404 ++ ": " ++ "missing") "missing" := by
  have h := api_proxy_status_handling ascii_uppercase
    (fun _ => .resp 404 (.ok "missing")) "GET"
    "http://localhost:3001/x" "missing" none 404 Method.GET rfl rfl
  have h4 := h.1 (by omega)
  exact ⟨h4.1, h4.2.1, h4.2.2⟩

/-- C10: for any behavior `up` of the standard library's
`str::to_uppercase`, when the uppercased method is not one of the five
supported verbs, `api_proxy` returns an error naming the (uppercased)
method and its result is independent of the HTTP environment (no request
is performed); and the comparison is case-insensitive: every method whose
uppercase image is "GET" (for the real case map that includes the
lowercase "get") parses as GET. -/
theorem api_proxy_unsupported (up : String → String) (method url : String)
    (body : Option String) (http http2 : Http)
    (h : up method ∉ (["GET", "POST", "PUT", "DELETE", "PATCH"] : List String)) :
    api_proxy up http method url body =
      .error ("Unsupported HTTP method: " ++ up method) ∧
    api_proxy up http method url body = api_proxy up http2 method url body ∧
    str_contains ("Unsupported HTTP method: " ++ up method) (up method) ∧
    (∀ m2 : String, up m2 = "GET" → parse_method up m2 = .ok .GET) := by
  have h5 : up method ≠ "GET" ∧ up method ≠ "POST" ∧ up method ≠ "PUT" ∧
      up method ≠ "DELETE" ∧ up method ≠ "PATCH" := by
    simpa [not_or] using h
  obtain ⟨h1, h2, h3, h4, h5⟩ := h5
  have hp : parse_method up method =
      .error ("Unsupported HTTP method: " ++ up method) := by
    simp [parse_method, h1, h2, h3, h4, h5]
  refine ⟨by simp [api_proxy, hp], by simp [api_proxy, hp],
    ⟨"Unsupported HTTP method: ", "", ?_⟩, ?_⟩
  · simp [str_append_assoc, String.append_empty]
  · intro m2 hm2
    simp [parse_method, hm2]

/-- C10 witness: under the ASCII case map (which agrees with
`str::to_uppercase` on these ASCII strings), "TRACE" is rejected with the
naming error, the result does not depend on the upstream, and the
lowercase "get" is accepted as GET. -/
theorem api_proxy_unsupported_witness :
    api_proxy ascii_uppercase (fun _ => .sendErr "boom") "TRACE" "http://u" none =
      .error ("Unsupported HTTP method: " ++ ascii_uppercase "TRACE") ∧
    api_proxy ascii_uppercase (fun _ => .sendErr "boom") "TRACE" "http://u" none =
      api_proxy ascii_uppercase (fun _ => .resp 200 (.ok "ok")) "TRACE" "http://u" none ∧
    parse_method ascii_uppercase "get" = .ok .GET := by
  have h := api_proxy_unsupported ascii_uppercase "TRACE" "http://u" none
    (fun _ => .sendErr "boom") (fun _ => .resp 200 (.ok "ok")) (by decide)
  exact ⟨h.1, h.2.1, h.2.2.2 "get" rfl⟩

-- ── Popover helper lemmas ──

/-- Updating the windows under a label with a label-preserving function
commutes with looking that label up. -/
theorem get_set_window (ws : List Window) (l : String) (f : Window → Window)
    (hf : ∀ w, (f w).label = w.label) :
    get_webview_window (set_window ws l f) l = (get_webview_window ws l).map f := by
  induction ws with
  | nil => rfl
  | cons w t ih =>
    simp only [set_window, List.map_cons, get_webview_window, List.find?_cons] at *
    by_cases hw : w.label = l
    · simp [hw, hf w]
    · simp [hw, hf w, ih]

/-- A label-preserving update leaves the popover-key window count
unchanged. -/
theorem count_set_window (ws : List Window) (l : String) (f : Window → Window)
    (hf : ∀ w, (f w).label = w.label) :
    popover_count (set_window ws l f) = popover_count ws := by
  induction ws with
  | nil => rfl
  | cons w t ih =>
    have hlab : (if w.label = l then f w else w).label = w.label := by
      by_cases hw : w.label = l <;> simp [hw, hf w]
    simp only [set_window, List.map_cons, popover_count, List.filter_cons, hlab] at *
    by_cases hc : w.label = "chat-popover" <;> simp [hc, ih]

/-- Appending the freshly built popover to a list that carries none makes
it the one the lookup finds. -/
theorem get_append_popover (ws : List Window)
    (h : get_webview_window ws "chat-popover" = none) :
    get_webview_window (ws ++ [new_popover]) "chat-popover" = some new_popover := by
  simp only [get_webview_window, List.find?_append] at *
  simp [h, new_popover]

/-- Appending the freshly built popover to a list that carries none yields
exactly one window under the singleton key. -/
theorem count_append_popover (ws : List Window)
    (h : get_webview_window ws "chat-popover" = none) :
    popover_count (ws ++ [new_popover]) = 1 := by
  simp only [get_webview_window, List.find?_eq_none] at h
  simp only [popover_count, List.filter_append]
  rw [List.filter_eq_nil_iff.mpr h]
  simp [new_popover]

/-- A focus event does not change a window's label. -/
theorem blur_update_label (p : Platform) (b : Bool) (w : Window) :
    (blur_update p b w).label = w.label := by
  unfold blur_update
  split <;> rfl

/-- Resolving `popover_state` at a found window. -/
theorem popover_state_some (ws : List Window) (w : Window)
    (h : get_webview_window ws "chat-popover" = some w) :
    popover_state ws = if w.visible then PopoverState.visible else PopoverState.hidden := by
  simp [popover_state, h]

/-- Resolving `popover_state` when no popover exists. -/
theorem popover_state_none (ws : List Window)
    (h : get_webview_window ws "chat-popover" = none) :
    popover_state ws = PopoverState.absent := by
  simp [popover_state, h]

/-- The hide branch of `toggle_popover`: a popover found visible (with the
visibility query answering and the hide succeeding) is hidden. -/
theorem toggle_hides_of_visible (p : Platform) (ws : List Window) (w1 : Window)
    (hg : get_webview_window ws "chat-popover" = some w1) (hvis : w1.visible = true)
    (hv : p.isVisibleOk = true) (hh : p.hideOk = true) :
    toggle_popover p ws =
      (set_window ws "chat-popover" (fun v => { v with visible := false }), .ok ()) := by
  simp [toggle_popover, hg, hvis, hv, hh]

/-- The show branch of `toggle_popover`: a popover found hidden is
repositioned against the reported monitor, shown and focused. -/
theorem toggle_shows_of_hidden (p : Platform) (ws : List Window) (w1 : Window) (scr : Int)
    (hg : get_webview_window ws "chat-popover" = some w1) (hvis : w1.visible = false)
    (hm : p.monitor = some scr) (hpos : p.positionOk = true)
    (hs : p.showOk = true) (hf : p.focusOk = true) :
    toggle_popover p ws =
      (set_window (set_window (set_window ws "chat-popover"
          (fun v => { v with pos := some (scr - 390, 30) })) "chat-popover"
          (fun v => { v with visible := true })) "chat-popover"
          (fun v => { v with focused := true }), .ok ()) := by
  simp [toggle_popover, hg, hvis, hm, hpos, hs, hf]

/-- The create branch of `toggle_popover`: with no popover under the key,
a fresh visible one is appended. -/
theorem toggle_creates_of_absent (p : Platform) (ws : List Window)
    (hg : get_webview_window ws "chat-popover" = none) (hc : p.createOk = true) :
    toggle_popover p ws = (ws ++ [new_popover], .ok ()) := by
  simp [toggle_popover, hg, hc]

/-- C4 counterexample: on a visible popover whose platform `hide` fails,
`toggle_popover` returns the failure to the caller instead of swallowing
it. -/
theorem toggle_popover_error_surfaces :
    (toggle_popover
      { hideOk := false, showOk := true, focusOk := true, createOk := true,
        positionOk := true, isVisibleOk := true, monitor := some 1440 }
      [{ label := "chat-popover", visible := true, focused := true, pos := none,
         blurHandler := true }]).2 = .error "hide failed" := rfl

/-- C4 amended: in `toggle_popover` only positioning failures are
swallowed (they never change the command's result); show, hide, focus and
create failures are returned to the caller, so the command succeeds
exactly when every operation its branch performs succeeds; likewise
`hide_popover` returns a hide failure whenever the popover exists. -/
theorem toggle_popover_failure_policy (p : Platform) (ws : List Window) :
    (toggle_popover p ws).2 = (toggle_popover { p with positionOk := false } ws).2 ∧
    ((toggle_popover p ws).2 = .ok () ↔
      (match get_webview_window ws "chat-popover" with
       | some w =>
         if w.visible && p.isVisibleOk then p.hideOk = true
         else p.showOk = true ∧ p.focusOk = true
       | none => p.createOk = true)) ∧
    ((hide_popover p ws).2 = .ok () ↔
      (get_webview_window ws "chat-popover" = none ∨ p.hideOk = true)) := by
  cases hfind : get_webview_window ws "chat-popover" with
  | none =>
    cases hc : p.createOk <;> simp [toggle_popover, hide_popover, hfind, hc]
  | some w =>
    cases hv : w.visible <;> cases hpv : p.isVisibleOk <;> cases hph : p.hideOk <;>
      cases hps : p.showOk <;> cases hpf : p.focusOk <;> cases hpm : p.monitor <;>
        cases hpp : p.positionOk <;>
          simp [toggle_popover, hide_popover, hfind, hv, hpv, hph, hps, hpf, hpm, hpp]

/-- C4 witness: on a fully working platform the command succeeds, and a
positioning failure alone does not change the result. -/
theorem toggle_popover_failure_policy_witness :
    (toggle_popover ok_platform []).2 = .ok () ∧
    (toggle_popover ok_platform []).2 =
      (toggle_popover { ok_platform with positionOk := false } []).2 := by
  have h := toggle_popover_failure_policy ok_platform []
  exact ⟨h.2.1.mpr rfl, h.1⟩

/-- C5 counterexample: two immediate `toggle_popover` calls from `absent`
do leave exactly one window under the singleton key, but that window is
hidden, not visible — the second call finds the freshly created visible
popover and hides it. -/
theorem toggle_twice_not_visible :
    ¬ (popover_count (toggle_popover ok_platform (toggle_popover ok_platform []).1).1 = 1 ∧
       popover_state (toggle_popover ok_platform (toggle_popover ok_platform []).1).1 =
         PopoverState.visible) := by
  decide

/-- C5 amended: two successive `toggle_popover` calls starting from
`absent` (platform operations succeeding) keep exactly one window under
the singleton key throughout; the first call creates it visible and the
second hides it, so it ends hidden. -/
theorem toggle_twice_from_absent (p : Platform) (ws : List Window)
    (habs : get_webview_window ws "chat-popover" = none)
    (hc : p.createOk = true) (hv : p.isVisibleOk = true) (hh : p.hideOk = true) :
    popover_count (toggle_popover p ws).1 = 1 ∧
    popover_state (toggle_popover p ws).1 = PopoverState.visible ∧
    popover_count (toggle_popover p (toggle_popover p ws).1).1 = 1 ∧
    popover_state (toggle_popover p (toggle_popover p ws).1).1 = PopoverState.hidden := by
  have h1 : (toggle_popover p ws).1 = ws ++ [new_popover] := by
    rw [toggle_creates_of_absent p ws habs hc]
  have hget1 : get_webview_window (ws ++ [new_popover]) "chat-popover" =
      some new_popover := get_append_popover ws habs
  have h2 := toggle_hides_of_visible p (ws ++ [new_popover]) new_popover hget1 rfl hv hh
  have hget2 : get_webview_window (set_window (ws ++ [new_popover]) "chat-popover"
      (fun v => { v with visible := false })) "chat-popover" =
      some { new_popover with visible := false } := by
    rw [get_set_window (ws ++ [new_popover]) "chat-popover"
      (fun v => { v with visible := false }) (fun w => rfl), hget1]
    rfl
  refine ⟨?_, ?_, ?_, ?_⟩
  · rw [h1]; exact count_append_popover ws habs
  · rw [h1, popover_state_some _ _ hget1]; rfl
  · rw [h1, h2]
    show popover_count (set_window (ws ++ [new_popover]) "chat-popover"
      (fun v => { v with visible := false })) = 1
    rw [count_set_window (ws ++ [new_popover]) "chat-popover"
      (fun v => { v with visible := false }) (fun w => rfl)]
    exact count_append_popover ws habs
  · rw [h1, h2]
    show popover_state (set_window (ws ++ [new_popover]) "chat-popover"
      (fun v => { v with visible := false })) = PopoverState.hidden
    rw [popover_state_some _ _ hget2]; rfl

/-- C5 witness: the amended property at the empty window list on the fully
working platform. -/
theorem toggle_twice_from_absent_witness :
    popover_count (toggle_popover ok_platform (toggle_popover ok_platform []).1).1 = 1 ∧
    popover_state (toggle_popover ok_platform (toggle_popover ok_platform []).1).1 =
      PopoverState.hidden := by
  have h := toggle_twice_from_absent ok_platform [] rfl rfl rfl rfl
  exact ⟨h.2.2.1, h.2.2.2⟩

/-- C6: starting from `hidden`, one `toggle_popover` call repositions the
popover against the reported monitor geometry, shows it and focuses it; a
second call hides it again; neither call creates or destroys windows. -/
theorem toggle_toggle_from_hidden (p : Platform) (ws : List Window) (w0 : Window)
    (scr : Int)
    (h0 : get_webview_window ws "chat-popover" = some w0) (hw0 : w0.visible = false)
    (hm : p.monitor = some scr) (hpos : p.positionOk = true)
    (hs : p.showOk = true) (hf : p.focusOk = true)
    (hv : p.isVisibleOk = true) (hh : p.hideOk = true) :
    (toggle_popover p ws).2 = .ok () ∧
    popover_state (toggle_popover p ws).1 = PopoverState.visible ∧
    (get_webview_window (toggle_popover p ws).1 "chat-popover").map
      (fun w => (w.focused, w.pos)) = some (true, some (scr - 390, 30)) ∧
    (toggle_popover p (toggle_popover p ws).1).2 = .ok () ∧
    popover_state (toggle_popover p (toggle_popover p ws).1).1 = PopoverState.hidden ∧
    popover_count (toggle_popover p ws).1 = popover_count ws ∧
    popover_count (toggle_popover p (toggle_popover p ws).1).1 = popover_count ws := by
  have hpair := toggle_shows_of_hidden p ws w0 scr h0 hw0 hm hpos hs hf
  have h1 : (toggle_popover p ws).1 =
      set_window (set_window (set_window ws "chat-popover"
        (fun v => { v with pos := some (scr - 390, 30) })) "chat-popover"
        (fun v => { v with visible := true })) "chat-popover"
        (fun v => { v with focused := true }) := by
    rw [hpair]
  have hget1 : get_webview_window (toggle_popover p ws).1 "chat-popover" =
      some { w0 with pos := some (scr - 390, 30), visible := true, focused := true } := by
    rw [h1]
    rw [get_set_window _ "chat-popover" (fun v => { v with focused := true }) (fun w => rfl),
      get_set_window _ "chat-popover" (fun v => { v with visible := true }) (fun w => rfl),
      get_set_window ws "chat-popover"
        (fun v => { v with pos := some (scr - 390, 30) }) (fun w => rfl), h0]
    rfl
  have hstate1 : popover_state (toggle_popover p ws).1 = PopoverState.visible := by
    rw [popover_state_some _ _ hget1]; rfl
  have hcount1 : popover_count (toggle_popover p ws).1 = popover_count ws := by
    rw [h1]
    rw [count_set_window _ "chat-popover" (fun v => { v with focused := true }) (fun w => rfl),
      count_set_window _ "chat-popover" (fun v => { v with visible := true }) (fun w => rfl),
      count_set_window ws "chat-popover"
        (fun v => { v with pos := some (scr - 390, 30) }) (fun w => rfl)]
  have h2pair := toggle_hides_of_visible p (toggle_popover p ws).1
    { w0 with pos := some (scr - 390, 30), visible := true, focused := true } hget1 rfl hv hh
  have hget2 : get_webview_window (set_window (toggle_popover p ws).1 "chat-popover"
      (fun v => { v with visible := false })) "chat-popover" =
      some { w0 with pos := some (scr - 390, 30), visible := false, focused := true } := by
    rw [get_set_window _ "chat-popover"
      (fun v => { v with visible := false }) (fun w => rfl), hget1]
    rfl
  refine ⟨by rw [hpair], hstate1, ?_, by rw [h2pair], ?_, hcount1, ?_⟩
  · rw [hget1]; rfl
  · rw [h2pair]
    show popover_state (set_window (toggle_popover p ws).1 "chat-popover"
      (fun v => { v with visible := false })) = PopoverState.hidden
    rw [popover_state_some _ _ hget2]; rfl
  · rw [h2pair]
    show popover_count (set_window (toggle_popover p ws).1 "chat-popover"
      (fun v => { v with visible := false })) = popover_count ws
    rw [count_set_window _ "chat-popover"
      (fun v => { v with visible := false }) (fun w => rfl)]
    exact hcount1

/-- C6 witness: the toggle pair from a concrete hidden popover. -/
theorem toggle_toggle_from_hidden_witness :
    popover_state (toggle_popover ok_platform
      [{ label := "chat-popover", visible := false, focused := false, pos := none,
         blurHandler := false }]).1 = PopoverState.visible ∧
    popover_state (toggle_popover ok_platform (toggle_popover ok_platform
      [{ label := "chat-popover", visible := false, focused := false, pos := none,
         blurHandler := false }]).1).1 = PopoverState.hidden := by
  have h := toggle_toggle_from_hidden ok_platform
    [{ label := "chat-popover", visible := false, focused := false, pos := none,
       blurHandler := false }]
    { label := "chat-popover", visible := false, focused := false, pos := none,
      blurHandler := false }
    1440 rfl rfl rfl rfl rfl rfl rfl rfl
  exact ⟨h.2.1, h.2.2.2.2.1⟩

/-- C7 counterexample: a popover created lazily by `toggle_popover`
carries no hide-on-blur reaction, so after it loses focus while visible it
stays visible — the automatic hide does not hold "however it came to
exist". -/
theorem lazy_popover_ignores_blur :
    popover_state
      (deliver_focus_event ok_platform
        (toggle_popover ok_platform (setup_blur_handler [])).1 "chat-popover" false) =
      PopoverState.visible ∧
    (get_webview_window
      (deliver_focus_event ok_platform
        (toggle_popover ok_platform (setup_blur_handler [])).1 "chat-popover" false)
      "chat-popover").map (fun w => w.focused) = some false := by
  decide

/-- C7 amended: the hide-on-blur reaction is registered only on a popover
that already exists when the setup hook runs; for such a popover a
focus-loss event hides it when visible and leaves it hidden when already
hidden, while a popover created lazily by `toggle_popover` carries no
reaction and stays visible through a focus loss. -/
theorem blur_handler_behavior (p : Platform) (ws : List Window) (w0 : Window)
    (h0 : get_webview_window ws "chat-popover" = some w0) (hh : p.hideOk = true) :
    popover_state (deliver_focus_event p (setup_blur_handler ws) "chat-popover" false) =
      PopoverState.hidden ∧
    (∀ ws2 : List Window, get_webview_window ws2 "chat-popover" = none →
      ∀ q : Platform, q.createOk = true →
        popover_state
          (deliver_focus_event p (toggle_popover q ws2).1 "chat-popover" false) =
          PopoverState.visible) := by
  constructor
  · have hsetup : get_webview_window (setup_blur_handler ws) "chat-popover" =
        some { w0 with blurHandler := true } := by
      simp only [setup_blur_handler, h0]
      rw [get_set_window ws "chat-popover"
        (fun v => { v with blurHandler := true }) (fun w => rfl), h0]
      rfl
    have hdel : get_webview_window
        (deliver_focus_event p (setup_blur_handler ws) "chat-popover" false)
        "chat-popover" =
        some { w0 with blurHandler := true, focused := false, visible := false } := by
      simp only [deliver_focus_event]
      rw [get_set_window _ _ _ (blur_update_label p false), hsetup]
      simp [blur_update, hh]
    rw [popover_state_some _ _ hdel]; rfl
  · intro ws2 habs q hqc
    have h1 : (toggle_popover q ws2).1 = ws2 ++ [new_popover] := by
      rw [toggle_creates_of_absent q ws2 habs hqc]
    have hget1 : get_webview_window (toggle_popover q ws2).1 "chat-popover" =
        some new_popover := by
      rw [h1]; exact get_append_popover ws2 habs
    have hdel : get_webview_window
        (deliver_focus_event p (toggle_popover q ws2).1 "chat-popover" false)
        "chat-popover" = some { new_popover with focused := false } := by
      simp only [deliver_focus_event]
      rw [get_set_window _ _ _ (blur_update_label p false), hget1]
      simp [blur_update, new_popover]
    rw [popover_state_some _ _ hdel]; rfl

/-- C7 witness: the amended property at a concrete visible popover that
existed at setup time, and a concrete lazy creation from the empty list. -/
theorem blur_handler_behavior_witness :
    popover_state (deliver_focus_event ok_platform
      (setup_blur_handler
        [{ label := "chat-popover", visible := true, focused := true, pos := none,
           blurHandler := false }]) "chat-popover" false) = PopoverState.hidden ∧
    popover_state (deliver_focus_event ok_platform
      (toggle_popover ok_platform []).1 "chat-popover" false) = PopoverState.visible := by
  have h := blur_handler_behavior ok_platform
    [{ label := "chat-popover", visible := true, focused := true, pos := none,
       blurHandler := false }]
    { label := "chat-popover", visible := true, focused := true, pos := none,
      blurHandler := false } rfl rfl
  exact ⟨h.1, h.2 [] rfl ok_platform rfl⟩

/-- C8: `hide_popover` on an absent popover succeeds, changes nothing and
leaves the state `absent`; on an existing popover (platform hide
succeeding) it succeeds and leaves the popover hidden. -/
theorem hide_popover_behavior (p : Platform) (ws : List Window) :
    (get_webview_window ws "chat-popover" = none →
      hide_popover p ws = (ws, .ok ()) ∧
      popover_state (hide_popover p ws).1 = PopoverState.absent) ∧
    (∀ w0, get_webview_window ws "chat-popover" = some w0 → p.hideOk = true →
      (hide_popover p ws).2 = .ok () ∧
      popover_state (hide_popover p ws).1 = PopoverState.hidden) := by
  constructor
  · intro h
    have h1 : hide_popover p ws = (ws, .ok ()) := by simp [hide_popover, h]
    refine ⟨h1, ?_⟩
    rw [h1]
    show popover_state ws = PopoverState.absent
    exact popover_state_none ws h
  · intro w0 h0 hh
    have h1 : hide_popover p ws =
        (set_window ws "chat-popover" (fun v => { v with visible := false }), .ok ()) := by
      simp [hide_popover, h0, hh]
    have hg : get_webview_window (set_window ws "chat-popover"
        (fun v => { v with visible := false })) "chat-popover" =
        some { w0 with visible := false } := by
      rw [get_set_window ws "chat-popover"
        (fun v => { v with visible := false }) (fun w => rfl), h0]
      rfl
    rw [h1]
    refine ⟨rfl, ?_⟩
    show popover_state (set_window ws "chat-popover"
      (fun v => { v with visible := false })) = PopoverState.hidden
    rw [popover_state_some _ _ hg]; rfl

/-- C8 witness: the empty window list and a single concrete popover. -/
theorem hide_popover_behavior_witness :
    hide_popover ok_platform [] = ([], .ok ()) ∧
    popover_state (hide_popover ok_platform [new_popover]).1 = PopoverState.hidden := by
  have h1 := (hide_popover_behavior ok_platform []).1 rfl
  have h2 := (hide_popover_behavior ok_platform [new_popover]).2 new_popover rfl rfl
  exact ⟨h1.1, h2.2⟩

end Tulsbot
